import Mathlib

/-!
Shallow embedding of `src/mvm.cpp` (Makgeolli Volume Meter firmware).

Modelling conventions:
* C `float`/`double` values are modelled by `MVM.FV`: an extended rational
  with an explicit NaN.  Arithmetic is exact (no rounding); every property
  proved below is insensitive to rounding (NaN propagation, sign clamps,
  and a one-decimal display whose input is far from a rounding boundary).
* C `int`/`long` are modelled by `Int`.  The C `%` and `/` on signed
  integers truncate toward zero, so they are modelled by `Int.tmod` and
  `Int.tdiv`.  Integer division by zero is undefined behaviour in C++ and
  is modelled by an `Option` result (`none` = undefined).
* Out-of-bounds array reads are undefined behaviour and are modelled by
  `List.get?` returning `none`.
* The EEPROM is modelled by its parsed contents: five profile slots plus
  the persisted active-index record.
* The ultrasonic sensor sample (`pingSonar`) is an external collaborator;
  it enters each cycle as an explicit `FV` parameter.
-/

namespace MVM

/-- Extended rational model of a C `float`: NaN, the two infinities, or a
finite (exact) value. -/
inductive FV where
  | nan : FV
  | pinf : FV
  | ninf : FV
  | fin : ℚ → FV
deriving DecidableEq, Repr

/-- IEEE-754 `isnan`. -/
def FV.isnan : FV → Bool
  | .nan => true
  | _ => false

/-- IEEE-754 addition (exact on finite values). -/
def FV.add : FV → FV → FV
  | .nan, _ => .nan
  | _, .nan => .nan
  | .pinf, .ninf => .nan
  | .ninf, .pinf => .nan
  | .pinf, _ => .pinf
  | _, .pinf => .pinf
  | .ninf, _ => .ninf
  | _, .ninf => .ninf
  | .fin a, .fin b => .fin (a + b)

/-- IEEE-754 subtraction (exact on finite values). -/
def FV.sub : FV → FV → FV
  | .nan, _ => .nan
  | _, .nan => .nan
  | .pinf, .pinf => .nan
  | .ninf, .ninf => .nan
  | .pinf, _ => .pinf
  | .ninf, _ => .ninf
  | .fin _, .pinf => .ninf
  | .fin _, .ninf => .pinf
  | .fin a, .fin b => .fin (a - b)

/-- IEEE-754 multiplication (exact on finite values); `0 * ±∞ = NaN`. -/
def FV.mul : FV → FV → FV
  | .nan, _ => .nan
  | _, .nan => .nan
  | .pinf, .pinf => .pinf
  | .pinf, .ninf => .ninf
  | .ninf, .pinf => .ninf
  | .ninf, .ninf => .pinf
  | .pinf, .fin b => if 0 < b then .pinf else if b < 0 then .ninf else .nan
  | .fin a, .pinf => if 0 < a then .pinf else if a < 0 then .ninf else .nan
  | .ninf, .fin b => if 0 < b then .ninf else if b < 0 then .pinf else .nan
  | .fin a, .ninf => if 0 < a then .ninf else if a < 0 then .pinf else .nan
  | .fin a, .fin b => .fin (a * b)

/-- Division by a positive finite constant (the source only divides by the
literal `1000.0f`). -/
def FV.divc : FV → ℚ → FV
  | .nan, _ => .nan
  | .pinf, _ => .pinf
  | .ninf, _ => .ninf
  | .fin a, c => .fin (a / c)

/-- IEEE-754 `<` comparison: any comparison with NaN is false. -/
def FV.lt : FV → FV → Bool
  | .nan, _ => false
  | _, .nan => false
  | .ninf, .ninf => false
  | .ninf, _ => true
  | _, .ninf => false
  | .pinf, _ => false
  | .fin _, .pinf => true
  | .fin a, .fin b => decide (a < b)

/-- "The value is `>= 0`" in the IEEE sense (false for NaN, true for `+∞`). -/
def FV.nonneg : FV → Bool
  | .nan => false
  | .pinf => true
  | .ninf => false
  | .fin q => decide (0 ≤ q)

/-- Truncation toward zero, as in a C float-to-integer conversion. -/
def ratTrunc (q : ℚ) : Int :=
  if 0 ≤ q then ⌊q⌋ else ⌈q⌉

/-- Conversion of a `float` to `long`: undefined (`none`) on NaN and on the
infinities. -/
def FV.toLong : FV → Option Int
  | .fin q => some (ratTrunc q)
  | _ => none

/-- The `#define PI 3.14159265359` constant of the source. -/
def PI : ℚ := 314159265359 / 100000000000

/-- `struct WaterTankSetting` with its in-class zero initialisers. -/
structure WaterTankSetting where
  minHeight : FV := .fin 0
  diameter : FV := .fin 0
  targetCapacity : FV := .fin 0
deriving DecidableEq, Repr

/-- The shared edit step used by `adjustSetting` for the `diameter` and
`targetCapacity` fields: reset NaN to 0, add the ±10 adjustment, clamp the
result below at 0. -/
def editVal (v : FV) (increase : Bool) : FV :=
  let adjustment : FV := .fin (if increase then 10 else -10)
  let v0 := if v.isnan then FV.fin 0 else v
  let v1 := v0.add adjustment
  if v1.lt (.fin 0) then .fin 0 else v1

/-- `adjustSetting` on the active profile: `menuItem` 0 replaces
`minHeight` by a fresh sonar sample, 1 edits `diameter`, 2 edits
`targetCapacity`, anything else is a no-op (the `switch` has no default). -/
def adjustSetting (st : WaterTankSetting) (menuItem : Int) (increase : Bool)
    (sonar : FV) : WaterTankSetting :=
  if menuItem = 0 then { st with minHeight := sonar }
  else if menuItem = 1 then { st with diameter := editVal st.diameter increase }
  else if menuItem = 2 then
    { st with targetCapacity := editVal st.targetCapacity increase }
  else st

/-- `isnan(currentSetting)` on an `int` promoted to floating point: an
`int` always converts to a finite value, so the test is constantly false. -/
def intIsNan (_ : Int) : Bool := false

/-- `adjustCurrentSettingIndex`: only acts when `menuItem == 0`; adds ±1 to
the active index (the float detour `currentSetting += adjustment` is exact
on every reachable value), then clamps into `[0,4]`. -/
def adjustCurrentSettingIndex (menuItem cs : Int) (increase : Bool) : Int :=
  if menuItem = 0 then
    let adjustment : Int := if increase then 1 else -1
    let cs0 := if intIsNan cs then 0 else cs
    let cs1 := cs0 + adjustment
    let cs2 := if cs1 < 0 then 0 else cs1
    if 5 ≤ cs2 then 4 else cs2
  else cs

/-- The screen constants (`#define MAIN_SCREEN 0` … `#define LOAD_SCREEN 4`). -/
def MAIN_SCREEN : Int := 0

def MENU_SCREEN : Int := 1

def VIEW_SCREEN : Int := 2

def SETTINGS_SCREEN : Int := 3

def LOAD_SCREEN : Int := 4

/-- The parsed contents of the EEPROM: the five profile slots (offsets
`i * sizeof(WaterTankSetting)`) followed by the active-index record. -/
structure EEPROMState where
  storedSettings : List WaterTankSetting
  storedIndex : Int
deriving DecidableEq, Repr

/-- The global mutable state of the firmware: `currentScreen`, `menuItem`,
`currentSetting`, the in-memory `settings[5]` array, and the EEPROM. -/
structure MachState where
  currentScreen : Int
  menuItem : Int
  currentSetting : Int
  settings : List WaterTankSetting
  eeprom : EEPROMState
deriving DecidableEq, Repr

/-- `loadSettings()`: read all five profile slots from EEPROM into memory. -/
def loadSettings (s : MachState) : MachState :=
  { s with settings := s.eeprom.storedSettings }

/-- `saveSettings(index)`: write slot `index` to its EEPROM offset when
`0 <= index < 5`; silent no-op otherwise. -/
def saveSettings (s : MachState) (index : Int) : MachState :=
  if 0 ≤ index ∧ index < 5 then
    let slot := s.settings.getD index.toNat {}
    let stored := s.eeprom.storedSettings.set index.toNat slot
    { s with eeprom := { s.eeprom with storedSettings := stored } }
  else s

/-- The menu-item cycling expression `(menuItem + delta) % itemCount` of the
source, with C truncated `%` semantics. -/
def cycleMenuItem (menuItem delta itemCount : Int) : Int :=
  Int.tmod (menuItem + delta) itemCount

/-- `executeMenuAction()`: dispatch `menuItem ∈ {0,1,2,3}` to
`{Main, View, Settings, Load}` (no-op on the screen for any other value),
then reset `menuItem` to the sentinel `-1`. -/
def executeMenuAction (s : MachState) : MachState :=
  let s1 :=
    if s.menuItem = 0 then { s with currentScreen := MAIN_SCREEN }
    else if s.menuItem = 1 then { s with currentScreen := VIEW_SCREEN }
    else if s.menuItem = 2 then { s with currentScreen := SETTINGS_SCREEN }
    else if s.menuItem = 3 then { s with currentScreen := LOAD_SCREEN }
    else s
  { s1 with menuItem := -1 }

/-- The instantaneous pressed state of the five buttons, as read at the top
of `handleButtons` (already inverted: `true` = pressed). -/
structure Buttons where
  up : Bool
  down : Bool
  left : Bool
  right : Bool
  sel : Bool
deriving DecidableEq, Repr

/-- `adjustSetting` applied at the machine level: edits
`settings[currentSetting]` in place. -/
def adjustSettingM (s : MachState) (increase : Bool) (sonar : FV) : MachState :=
  let slot := s.settings.getD s.currentSetting.toNat {}
  let slot1 := adjustSetting slot s.menuItem increase sonar
  { s with settings := s.settings.set s.currentSetting.toNat slot1 }

/-- `adjustCurrentSettingIndex` applied at the machine level. -/
def adjustCurrentSettingIndexM (s : MachState) (increase : Bool) : MachState :=
  { s with currentSetting :=
    adjustCurrentSettingIndex s.menuItem s.currentSetting increase }

/-- `handleButtons()`: one input-handling step of the control cycle.  The
sequential `if` statements mutating `menuItem` are modelled by threading
intermediate states (`s1`, `s2`), exactly in source order. -/
def handleButtons (s : MachState) (b : Buttons) (sonar : FV) : MachState :=
  if s.currentScreen = MAIN_SCREEN then
    if b.sel then { s with currentScreen := MENU_SCREEN, menuItem := -1 }
    else s
  else if s.currentScreen = MENU_SCREEN then
    let s1 := if b.up then { s with menuItem := cycleMenuItem s.menuItem 3 4 }
              else s
    let s2 := if b.down then
                { s1 with menuItem := cycleMenuItem s1.menuItem 1 4 }
              else s1
    if b.sel then executeMenuAction s2 else s2
  else if s.currentScreen = VIEW_SCREEN then
    if b.sel then { s with currentScreen := MENU_SCREEN } else s
  else if s.currentScreen = SETTINGS_SCREEN then
    let s1 := if b.up then { s with menuItem := cycleMenuItem s.menuItem 3 4 }
              else s
    let s2 := if b.down then
                { s1 with menuItem := cycleMenuItem s1.menuItem 1 4 }
              else s1
    if s2.menuItem = 0 then
      if b.sel then adjustSettingM s2 true sonar else s2
    else if s2.menuItem < 3 then
      if b.left then adjustSettingM s2 false sonar
      else if b.right then adjustSettingM s2 true sonar
      else s2
    else
      if b.sel then
        let s3 := saveSettings s2 s2.currentSetting
        { s3 with currentScreen := MENU_SCREEN, menuItem := -1 }
      else s2
  else if s.currentScreen = LOAD_SCREEN then
    let s1 := if b.up then { s with menuItem := cycleMenuItem s.menuItem 1 2 }
              else s
    let s2 := if b.down then
                { s1 with menuItem := cycleMenuItem s1.menuItem 1 2 }
              else s1
    if s2.menuItem = 0 then
      if b.left then adjustCurrentSettingIndexM s2 false
      else if b.right then adjustCurrentSettingIndexM s2 true
      else s2
    else
      if b.sel then
        let s3 := { s2 with eeprom :=
                    { s2.eeprom with storedIndex := s2.currentSetting } }
        let s4 := loadSettings s3
        { s4 with currentScreen := MENU_SCREEN, menuItem := -1 }
      else s2
  else s

/-- The index-recovery logic of `setup()`: read the persisted active index;
if it is outside `[0,5)` reset it to 0 in memory and persist the
correction immediately.  Returns the resulting `currentSetting` together
with the (possibly rewritten) EEPROM. -/
def setupIndex (e : EEPROMState) : Int × EEPROMState :=
  let cs := e.storedIndex
  if cs < 0 ∨ 5 ≤ cs then (0, { e with storedIndex := 0 })
  else (cs, e)

/-- The Arduino `map(x, in_min, in_max, out_min, out_max)` helper on `long`
values: `(x - in_min) * (out_max - out_min) / (in_max - in_min) + out_min`
with C truncated division.  When `in_max == in_min` the division is an
integer division by zero — undefined behaviour — modelled as `none`. -/
def mapArduino (x in_min in_max out_min out_max : Int) : Option Int :=
  if in_max - in_min = 0 then none
  else
    some (Int.tdiv ((x - in_min) * (out_max - out_min)) (in_max - in_min)
          + out_min)

/-- `Print::print(v, 1)` for a nonnegative finite `v`: the printed
one-decimal value, returned as an integer number of tenths (Arduino adds
`0.5 / 10` and then extracts digits by truncation, which amounts to
rounding the tenths half-up). -/
def printFloat1 (q : ℚ) : Int := ⌊q * 10 + 1 / 2⌋

/-- What the `float` argument of `display.print(volume, 1)` shows: the
tenths for a finite value, `none` for NaN/±∞ (Arduino prints a non-numeric
marker there). -/
def FV.printed1 : FV → Option Int
  | .fin q => some (printFloat1 q)
  | _ => none

/-- The display width of the 128×64 SSD1306 panel. -/
def displayWidth : Int := 128

/-- The observable outcome of `updateMainScreen`: either the NaN-branch
prompt message, or the numeric branch with the printed one-decimal volume
and the computed `fillRect` progress width (`none` = the `map` call hit
its undefined division). -/
inductive MainRender where
  | prompt (msg : String)
  | numeric (tenths : Option Int) (progress : Option Int)
deriving DecidableEq, Repr

/-- The prompt message of a render, when the NaN branch was taken. -/
def MainRender.promptMsg : MainRender → Option String
  | .prompt m => some m
  | .numeric _ _ => none

/-- The printed one-decimal volume of a render, when the numeric branch was
taken. -/
def MainRender.printedTenths : MainRender → Option Int
  | .prompt _ => none
  | .numeric t _ => t

/-- The progress-bar fill width of a render: defined only in the numeric
branch and only when the `map` division was defined. -/
def MainRender.progressFill : MainRender → Option Int
  | .prompt _ => none
  | .numeric _ p => p

/-- The volume computed at the top of `updateMainScreen`:
`height = minHeight - distance`; `volume = (PI * diameter * height) / 1000`. -/
def computeVolume (st : WaterTankSetting) (distance : FV) : FV :=
  let height := st.minHeight.sub distance
  (((FV.fin PI).mul st.diameter).mul height).divc 1000

/-- `updateMainScreen()` on the active profile and the live sonar sample:
if the volume is NaN print the prompt; otherwise clamp negative volume to
0 for display, print it with one decimal, and fill the progress bar to
`map(volume, 0, targetCapacity, 0, display.width() - 4)`. -/
def updateMainScreen (st : WaterTankSetting) (distance : FV) : MainRender :=
  let volume := computeVolume st distance
  if volume.isnan then .prompt "please set up tank"
  else
    let volume := if volume.lt (.fin 0) then FV.fin 0 else volume
    let progressBarWidth : Int := displayWidth - 4
    let progress : Option Int :=
      match volume.toLong, st.targetCapacity.toLong with
      | some v, some t => mapArduino v 0 t 0 progressBarWidth
      | _, _ => none
    .numeric volume.printed1 progress

/-- The four-element menu-label array of `updateMenuScreen`. -/
def menuLabels : List String :=
  ["Main Screen", "View Settings", "Edit Settings", "Load Settings"]

/-- The rows drawn by `updateMenuScreen()`: the loop runs `i = 0 .. 4`
inclusive (`for (int i = 0; i < 5; i++)`) and fetches `menuItems[i]` for
each row; an out-of-bounds fetch is undefined behaviour, modelled as
`none`.  Each row also records whether it is drawn highlighted
(`i == menuItem`). -/
def updateMenuScreen (menuItem : Int) : List (Option String × Bool) :=
  (List.range 5).map (fun i => (menuLabels.get? i, decide ((i : Int) = menuItem)))

/-! ## Helper lemmas and concrete fixtures -/

/-- Computation rule: subtraction of finite values. -/
theorem fin_sub (a b : ℚ) : (FV.fin a).sub (.fin b) = .fin (a - b) := rfl

/-- Computation rule: multiplication of finite values. -/
theorem fin_mul (a b : ℚ) : (FV.fin a).mul (.fin b) = .fin (a * b) := rfl

/-- Computation rule: division of a finite value by a constant. -/
theorem fin_divc (a c : ℚ) : (FV.fin a).divc c = .fin (a / c) := rfl

/-- On all-finite inputs the volume of `updateMainScreen` is the exact
rational `PI * diameter * (minHeight - distance) / 1000`. -/
theorem computeVolume_fin (mh dia tc dist : ℚ) :
    computeVolume
        { minHeight := .fin mh, diameter := .fin dia, targetCapacity := .fin tc }
        (.fin dist)
      = .fin (PI * dia * (mh - dist) / 1000) := by
  simp [computeVolume, fin_sub, fin_mul, fin_divc]

/-- A NaN diameter always makes the computed volume NaN, whatever the other
fields and the sensor sample are. -/
theorem computeVolume_nan_diameter (mh tc : FV) (dist : FV) :
    (computeVolume { minHeight := mh, diameter := .nan, targetCapacity := tc }
        dist).isnan = true := by
  cases mh <;> cases dist <;> rfl

/-- Factory-default profile set: five zero-initialised slots. -/
def tank0 : List WaterTankSetting := List.replicate 5 {}

/-- A concrete EEPROM fixture. -/
def ee0 : EEPROMState := { storedSettings := tank0, storedIndex := 0 }

/-- Button fixture: only Select pressed. -/
def selOnly : Buttons :=
  { up := false, down := false, left := false, right := false, sel := true }

/-- Button fixture: Down and Select pressed simultaneously. -/
def downSel : Buttons :=
  { up := false, down := true, left := false, right := false, sel := true }

/-! ## C1 — progress bar at `targetCapacity = 0` -/

/-- C1: the claim that a zero `targetCapacity` is special-cased to a
zero-fill progress bar fails: the code passes `targetCapacity` straight to
`map`, whose divisor `in_max - in_min` is then `0`, so the fill width is an
integer division by zero (undefined behaviour), not a rendered zero fill.
Evaluated at `minHeight = 50`, `diameter = 20`, `targetCapacity = 0`,
sample `30` (volume ≈ 1.2566, not NaN): the numeric branch is taken (no
prompt) and the progress-fill computation has no defined result. -/
theorem mainScreen_zero_capacity_divides_by_zero :
    (updateMainScreen
        { minHeight := .fin 50, diameter := .fin 20, targetCapacity := .fin 0 }
        (.fin 30)).promptMsg = none ∧
    (updateMainScreen
        { minHeight := .fin 50, diameter := .fin 20, targetCapacity := .fin 0 }
        (.fin 30)).progressFill = none := by
  constructor
  · rw [updateMainScreen, computeVolume_fin]
    norm_num [FV.isnan, FV.lt, MainRender.promptMsg]
  · rw [updateMainScreen, computeVolume_fin]
    norm_num [FV.isnan, FV.lt, FV.toLong, ratTrunc, mapArduino,
      MainRender.progressFill, PI, Int.floor_eq_iff]

/-! ## C2 — menu-label fetches of the Menu render -/

/-- C2: the claim that the Menu render reads only in-bounds entries of the
4-element label array fails: the row loop runs `i = 0,1,2,3,4`
(`for (int i = 0; i < 5; i++)`), so for every `menuItem` the fifth
iteration fetches `menuItems[4]` from the 4-element array — an
out-of-bounds read (`none`). -/
theorem menuScreen_reads_label_out_of_bounds (menuItem : Int) :
    (updateMenuScreen menuItem).map Prod.fst
      = [some "Main Screen", some "View Settings", some "Edit Settings",
         some "Load Settings", none] ∧
    menuLabels.length = 4 := by
  constructor
  · simp [updateMenuScreen, menuLabels, List.range_succ]
  · rfl

/-! ## Per-screen unfolding lemmas for `handleButtons` -/

/-- `handleButtons` on the Main screen. -/
theorem handleButtons_at_main (m cs : Int) (sets : List WaterTankSetting)
    (e : EEPROMState) (u dn l r se : Bool) (d : FV) :
    handleButtons ⟨MAIN_SCREEN, m, cs, sets, e⟩ ⟨u, dn, l, r, se⟩ d =
      if se then ⟨MENU_SCREEN, -1, cs, sets, e⟩
      else ⟨MAIN_SCREEN, m, cs, sets, e⟩ := by
  cases se <;> rfl

/-- `handleButtons` on the Menu screen. -/
theorem handleButtons_at_menu (m cs : Int) (sets : List WaterTankSetting)
    (e : EEPROMState) (u dn l r se : Bool) (d : FV) :
    handleButtons ⟨MENU_SCREEN, m, cs, sets, e⟩ ⟨u, dn, l, r, se⟩ d =
      (let m1 := if u then cycleMenuItem m 3 4 else m
       let m2 := if dn then cycleMenuItem m1 1 4 else m1
       if se then executeMenuAction ⟨MENU_SCREEN, m2, cs, sets, e⟩
       else ⟨MENU_SCREEN, m2, cs, sets, e⟩) := by
  cases u <;> cases dn <;> cases se <;> rfl

/-- `handleButtons` on the View screen. -/
theorem handleButtons_at_view (m cs : Int) (sets : List WaterTankSetting)
    (e : EEPROMState) (u dn l r se : Bool) (d : FV) :
    handleButtons ⟨VIEW_SCREEN, m, cs, sets, e⟩ ⟨u, dn, l, r, se⟩ d =
      if se then ⟨MENU_SCREEN, m, cs, sets, e⟩
      else ⟨VIEW_SCREEN, m, cs, sets, e⟩ := by
  cases se <;> rfl

/-- `handleButtons` on the Edit Settings screen. -/
theorem handleButtons_at_settings (m cs : Int) (sets : List WaterTankSetting)
    (e : EEPROMState) (u dn l r se : Bool) (d : FV) :
    handleButtons ⟨SETTINGS_SCREEN, m, cs, sets, e⟩ ⟨u, dn, l, r, se⟩ d =
      (let m1 := if u then cycleMenuItem m 3 4 else m
       let m2 := if dn then cycleMenuItem m1 1 4 else m1
       let s2 : MachState := ⟨SETTINGS_SCREEN, m2, cs, sets, e⟩
       if m2 = 0 then (if se then adjustSettingM s2 true d else s2)
       else if m2 < 3 then
         (if l then adjustSettingM s2 false d
          else if r then adjustSettingM s2 true d
          else s2)
       else
         (if se then
            let s3 := saveSettings s2 cs
            { s3 with currentScreen := MENU_SCREEN, menuItem := -1 }
          else s2)) := by
  cases u <;> cases dn <;> cases l <;> cases r <;> cases se <;> rfl

/-- `handleButtons` on the Load Settings screen. -/
theorem handleButtons_at_load (m cs : Int) (sets : List WaterTankSetting)
    (e : EEPROMState) (u dn l r se : Bool) (d : FV) :
    handleButtons ⟨LOAD_SCREEN, m, cs, sets, e⟩ ⟨u, dn, l, r, se⟩ d =
      (let m1 := if u then cycleMenuItem m 1 2 else m
       let m2 := if dn then cycleMenuItem m1 1 2 else m1
       let s2 : MachState := ⟨LOAD_SCREEN, m2, cs, sets, e⟩
       if m2 = 0 then
         (if l then adjustCurrentSettingIndexM s2 false
          else if r then adjustCurrentSettingIndexM s2 true
          else s2)
       else
         (if se then
            let s3 : MachState := ⟨LOAD_SCREEN, m2, cs, sets,
              { e with storedIndex := cs }⟩
            let s4 := loadSettings s3
            { s4 with currentScreen := MENU_SCREEN, menuItem := -1 }
          else s2)) := by
  cases u <;> cases dn <;> cases l <;> cases r <;> cases se <;> rfl

/-- `handleButtons` on an unknown screen value: the `switch` falls through
and nothing changes. -/
theorem handleButtons_at_other (s : MachState) (b : Buttons) (d : FV)
    (h0 : s.currentScreen ≠ MAIN_SCREEN) (h1 : s.currentScreen ≠ MENU_SCREEN)
    (h2 : s.currentScreen ≠ VIEW_SCREEN)
    (h3 : s.currentScreen ≠ SETTINGS_SCREEN)
    (h4 : s.currentScreen ≠ LOAD_SCREEN) :
    handleButtons s b d = s := by
  unfold handleButtons
  rw [if_neg h0, if_neg h1, if_neg h2, if_neg h3, if_neg h4]

/-! ## Concrete state fixtures -/

/-- Fixture: View screen with a non-sentinel `menuItem`. -/
def stView : MachState where
  currentScreen := VIEW_SCREEN
  menuItem := 0
  currentSetting := 0
  settings := tank0
  eeprom := ee0

/-- Fixture: Main screen. -/
def stMain : MachState where
  currentScreen := MAIN_SCREEN
  menuItem := 5
  currentSetting := 0
  settings := tank0
  eeprom := ee0

/-- Fixture: Menu screen with the first row highlighted. -/
def stMenu0 : MachState where
  currentScreen := MENU_SCREEN
  menuItem := 0
  currentSetting := 0
  settings := tank0
  eeprom := ee0

/-- Fixture: Load Settings screen, fresh from the menu (`menuItem = -1`),
active index 2, persisted index 0. -/
def stLoad : MachState where
  currentScreen := LOAD_SCREEN
  menuItem := -1
  currentSetting := 2
  settings := tank0
  eeprom := ee0

/-! ## C3 — `menuItem` reset on entering the Menu screen -/

/-- C3 counterexample: from the View screen with `menuItem = 0`, pressing
Select moves the screen to Menu but the code performs no
`menuItem = -1` assignment there, so the resulting `menuItem` is `0`,
not the sentinel. -/
theorem view_select_enters_menu_without_reset :
    stView.currentScreen ≠ MENU_SCREEN ∧
    (handleButtons stView selOnly (.fin 0)).currentScreen = MENU_SCREEN ∧
    (handleButtons stView selOnly (.fin 0)).menuItem ≠ -1 := by
  decide

set_option maxHeartbeats 1600000 in
/-- C3 (amended): whenever a control-cycle step changes the current screen
to Menu, the resulting `menuItem` is the sentinel `-1` — except for the
View-via-Select transition, which leaves `menuItem` unchanged (so the
sentinel is preserved there only if it already held). -/
theorem menu_entry_menuItem_reset (s : MachState) (b : Buttons) (d : FV)
    (hne : s.currentScreen ≠ MENU_SCREEN)
    (hto : (handleButtons s b d).currentScreen = MENU_SCREEN) :
    (s.currentScreen = VIEW_SCREEN →
      (handleButtons s b d).menuItem = s.menuItem) ∧
    (s.currentScreen ≠ VIEW_SCREEN →
      (handleButtons s b d).menuItem = -1) := by
  obtain ⟨scr, m, cs, sets, e⟩ := s
  obtain ⟨u, dn, l, r, se⟩ := b
  simp only [MachState.currentScreen, MachState.menuItem] at *
  by_cases h0 : scr = MAIN_SCREEN
  · subst h0
    rw [handleButtons_at_main] at hto ⊢
    cases se <;> simp_all [MAIN_SCREEN, MENU_SCREEN, VIEW_SCREEN]
  · by_cases h1 : scr = MENU_SCREEN
    · exact absurd h1 hne
    · by_cases h2 : scr = VIEW_SCREEN
      · subst h2
        rw [handleButtons_at_view] at hto ⊢
        cases se <;> simp_all [MENU_SCREEN, VIEW_SCREEN]
      · by_cases h3 : scr = SETTINGS_SCREEN
        · subst h3
          rw [handleButtons_at_settings] at hto ⊢
          dsimp only at hto ⊢
          split_ifs at hto ⊢ <;>
            simp_all [adjustSettingM, saveSettings, SETTINGS_SCREEN,
              MENU_SCREEN, VIEW_SCREEN]
        · by_cases h4 : scr = LOAD_SCREEN
          · subst h4
            rw [handleButtons_at_load] at hto ⊢
            dsimp only at hto ⊢
            split_ifs at hto ⊢ <;>
              simp_all [adjustCurrentSettingIndexM, loadSettings, LOAD_SCREEN,
                MENU_SCREEN, VIEW_SCREEN]
          · rw [handleButtons_at_other _ _ _ h0 h1 h2 h3 h4] at hto ⊢
            exact absurd hto h1

/-- C3 witness: the amended theorem applied to the Main screen with Select
pressed. -/
theorem menu_entry_menuItem_reset_witness :
    (stMain.currentScreen = VIEW_SCREEN →
      (handleButtons stMain selOnly (.fin 0)).menuItem = stMain.menuItem) ∧
    (stMain.currentScreen ≠ VIEW_SCREEN →
      (handleButtons stMain selOnly (.fin 0)).menuItem = -1) :=
  menu_entry_menuItem_reset stMain selOnly (.fin 0) (by decide) (by decide)

/-- The combined effect of the two sequential Up/Down cycling `if`s of a
4-item screen within one `handleButtons` call. -/
def cycled4 (m : Int) (u dn : Bool) : Int :=
  let m1 := if u then cycleMenuItem m 3 4 else m
  if dn then cycleMenuItem m1 1 4 else m1

/-- The combined effect of the two sequential Up/Down cycling `if`s of the
Load screen (both advance forward) within one `handleButtons` call. -/
def cycled2 (m : Int) (u dn : Bool) : Int :=
  let m1 := if u then cycleMenuItem m 1 2 else m
  if dn then cycleMenuItem m1 1 2 else m1

/-! ## C4 — evaluation order of Select vs. arrows on the Menu screen -/

/-- C4 counterexample: on the Menu screen with `menuItem = 0`, pressing
Down and Select together executes the action for the *post-cycled* item
(`menuItem = 1`, the View screen), not the action for the pre-cycle value
(`menuItem = 0`, the Main screen, which is what `executeMenuAction` on the
unchanged state would produce): the arrow `if`s run before the Select
`if`. -/
theorem menu_down_select_runs_cycled_action :
    (handleButtons stMenu0 downSel (.fin 0)).currentScreen = VIEW_SCREEN ∧
    (executeMenuAction stMenu0).currentScreen = MAIN_SCREEN ∧
    VIEW_SCREEN ≠ MAIN_SCREEN := by
  decide

/-- C4 (amended): on the Menu screen the arrow conditions are evaluated
*before* the Select condition, so when Select and an arrow are pressed
simultaneously the executed menu action corresponds to the `menuItem`
value *after* the arrow-driven cycling of that same cycle. -/
theorem menu_arrows_before_select (s : MachState) (b : Buttons) (d : FV)
    (hs : s.currentScreen = MENU_SCREEN) (hsel : b.sel = true) :
    handleButtons s b d =
      executeMenuAction ⟨MENU_SCREEN, cycled4 s.menuItem b.up b.down,
        s.currentSetting, s.settings, s.eeprom⟩ := by
  obtain ⟨scr, m, cs, sets, e⟩ := s
  obtain ⟨u, dn, l, r, se⟩ := b
  simp only [MachState.currentScreen, Buttons.sel] at hs hsel
  subst hs
  subst hsel
  rw [handleButtons_at_menu]
  rfl

/-- C4 witness: the amended theorem at the Menu screen with Down+Select. -/
theorem menu_arrows_before_select_witness :
    handleButtons stMenu0 downSel (.fin 0) =
      executeMenuAction ⟨MENU_SCREEN,
        cycled4 stMenu0.menuItem downSel.up downSel.down,
        stMenu0.currentSetting, stMenu0.settings, stMenu0.eeprom⟩ :=
  menu_arrows_before_select stMenu0 downSel (.fin 0) (by decide) (by decide)

/-! ## C5 — what Select does on the Load Settings screen -/

/-- C5 counterexample: on the Load screen with the sentinel
`menuItem = -1`, pressing Select alone *does* persist the active index
(stored index changes from 0 to 2), reload the profiles, transition to
Menu and set `menuItem = -1` — although `menuItem ≠ 1`: the action branch
is the `else` of `menuItem == 0`, so it fires for every non-zero value. -/
theorem load_select_fires_on_sentinel :
    stLoad.menuItem ≠ 1 ∧
    stLoad.eeprom.storedIndex = 0 ∧
    (handleButtons stLoad selOnly (.fin 0)).eeprom.storedIndex = 2 ∧
    (handleButtons stLoad selOnly (.fin 0)).currentScreen = MENU_SCREEN ∧
    (handleButtons stLoad selOnly (.fin 0)).menuItem = -1 := by
  decide

/-- C5 (amended): on the Load screen, Select persists the active index,
reloads all profiles, transitions to Menu and sets `menuItem = -1` exactly
when the `menuItem` value after this cycle's Up/Down cycling is *not* 0
(in particular also for the sentinel `-1`); when that value is 0, Select
performs none of these effects. -/
theorem load_select_exactly_nonzero (s : MachState) (b : Buttons) (d : FV)
    (hs : s.currentScreen = LOAD_SCREEN) (hsel : b.sel = true) :
    (cycled2 s.menuItem b.up b.down ≠ 0 →
      handleButtons s b d =
        ⟨MENU_SCREEN, -1, s.currentSetting, s.eeprom.storedSettings,
         ⟨s.eeprom.storedSettings, s.currentSetting⟩⟩) ∧
    (cycled2 s.menuItem b.up b.down = 0 → b.left = false → b.right = false →
      handleButtons s b d =
        ⟨LOAD_SCREEN, 0, s.currentSetting, s.settings, s.eeprom⟩) := by
  obtain ⟨scr, m, cs, sets, e⟩ := s
  obtain ⟨u, dn, l, r, se⟩ := b
  simp only [MachState.currentScreen, MachState.menuItem,
    MachState.currentSetting, MachState.settings, MachState.eeprom,
    Buttons.sel, Buttons.up, Buttons.down, Buttons.left, Buttons.right] at *
  subst hs
  subst hsel
  rw [handleButtons_at_load]
  unfold cycled2
  dsimp only
  constructor
  · intro hm2
    rw [if_neg hm2]
    rfl
  · intro hm2 hl hr
    subst hl
    subst hr
    rw [if_pos hm2]
    rw [hm2]
    rfl

/-- C5 witness: the amended theorem at the Load screen fixture with only
Select pressed (sentinel `menuItem = -1`). -/
theorem load_select_exactly_nonzero_witness :
    handleButtons stLoad selOnly (.fin 0) =
      ⟨MENU_SCREEN, -1, stLoad.currentSetting, stLoad.eeprom.storedSettings,
       ⟨stLoad.eeprom.storedSettings, stLoad.currentSetting⟩⟩ :=
  (load_select_exactly_nonzero stLoad selOnly (.fin 0) (by decide)
    (by decide)).1 (by decide)

/-! ## C6 — range of the menu-item cycling formula -/

/-- C6 counterexample: the cycling formula with C truncated `%` leaves
`[0, itemCount)` for `menuItem = -2` and a Down press on a 4-item screen:
`(-2 + 1) % 4 = -1` in C.  (The value `-2` never occurs in a run of the
program, which is what the amended claim restricts to.) -/
theorem cycle_out_of_range_at_minus_two :
    cycleMenuItem (-2) 1 4 = -1 ∧ cycleMenuItem (-2) 1 4 < 0 := by
  decide

/-- C6 (amended): restricted to the values `menuItem` actually takes — the
sentinel `-1` together with `[0, itemCount)` — the cycling formula with the
deltas used by the code (3 = previous and 1 = next on the 4-item Menu/Edit
screens, 1 on the 2-item Load screen) always lands in `[0, itemCount)`,
including from the sentinel. -/
theorem cycle_in_range (m : Int) :
    ((m = -1 ∨ (0 ≤ m ∧ m < 4)) →
      (0 ≤ cycleMenuItem m 3 4 ∧ cycleMenuItem m 3 4 < 4) ∧
      (0 ≤ cycleMenuItem m 1 4 ∧ cycleMenuItem m 1 4 < 4)) ∧
    ((m = -1 ∨ (0 ≤ m ∧ m < 2)) →
      (0 ≤ cycleMenuItem m 1 2 ∧ cycleMenuItem m 1 2 < 2)) := by
  constructor
  · rintro (h | ⟨h1, h2⟩)
    · subst h
      decide
    · interval_cases m <;> decide
  · rintro (h | ⟨h1, h2⟩)
    · subst h
      decide
    · interval_cases m <;> decide

/-- C6 witness: the amended theorem applied at the sentinel `-1`. -/
theorem cycle_in_range_witness :
    ((0 ≤ cycleMenuItem (-1) 3 4 ∧ cycleMenuItem (-1) 3 4 < 4) ∧
     (0 ≤ cycleMenuItem (-1) 1 4 ∧ cycleMenuItem (-1) 1 4 < 4)) ∧
    (0 ≤ cycleMenuItem (-1) 1 2 ∧ cycleMenuItem (-1) 1 2 < 2) :=
  ⟨(cycle_in_range (-1)).1 (Or.inl rfl), (cycle_in_range (-1)).2 (Or.inl rfl)⟩

/-! ## C7 — the active profile index stays in `[0,5)` -/

/-- C7: the boot-time read of the persisted index lands in `[0,5)`, an
out-of-range stored value is corrected to 0 and the correction is written
back to the EEPROM; and every Left/Right adjustment
(`adjustCurrentSettingIndex` with the Load screen's `menuItem = 0`) clamps
the index into `[0,5)` from *any* starting integer. -/
theorem activeIndex_in_range :
    (∀ e : EEPROMState,
      0 ≤ (setupIndex e).1 ∧ (setupIndex e).1 < 5 ∧
      ((e.storedIndex < 0 ∨ 5 ≤ e.storedIndex) →
        (setupIndex e).1 = 0 ∧ (setupIndex e).2.storedIndex = 0)) ∧
    (∀ (cs : Int) (inc : Bool),
      0 ≤ adjustCurrentSettingIndex 0 cs inc ∧
      adjustCurrentSettingIndex 0 cs inc < 5) := by
  constructor
  · intro e
    unfold setupIndex
    dsimp only
    split_ifs with h
    · exact ⟨le_refl 0, by norm_num, fun _ => ⟨rfl, rfl⟩⟩
    · push_neg at h
      exact ⟨h.1, h.2, fun hc => absurd hc (by omega)⟩
  · intro cs inc
    unfold adjustCurrentSettingIndex intIsNan
    cases inc <;> simp <;> split_ifs <;> omega

/-- C7 witness: boot with garbage stored index 7 (corrected and
persisted as 0), and a Right adjustment from index 4 (stays below 5). -/
theorem activeIndex_in_range_witness :
    ((setupIndex ⟨tank0, 7⟩).1 = 0 ∧
     (setupIndex ⟨tank0, 7⟩).2.storedIndex = 0) ∧
    (0 ≤ adjustCurrentSettingIndex 0 4 true ∧
     adjustCurrentSettingIndex 0 4 true < 5) :=
  ⟨(activeIndex_in_range.1 ⟨tank0, 7⟩).2.2 (by decide),
   activeIndex_in_range.2 4 true⟩

/-! ## C8 — edited fields are never negative -/

/-- A single `editVal` step always produces a value that is `>= 0` in the
IEEE sense, from any starting value (NaN is reset to 0 first, `-∞` is
caught by the `< 0` clamp, `+∞` stays `+∞`). -/
theorem editVal_nonneg (v : FV) (inc : Bool) : (editVal v inc).nonneg = true := by
  cases v <;> cases inc <;>
    simp [editVal, FV.isnan, FV.add, FV.lt, FV.nonneg] <;>
    split_ifs <;>
    simp_all [FV.nonneg]

/-- C8: `adjustSetting` edits `diameter` (menu item 1) and `targetCapacity`
(menu item 2) by exactly the reset-NaN / add ±10 / clamp-at-0 step
(`editVal`), and any nonempty sequence of such edits leaves the field
`>= 0`, regardless of the starting value (including NaN). -/
theorem edit_fields_nonneg :
    (∀ (st : WaterTankSetting) (inc : Bool) (son : FV),
      (adjustSetting st 1 inc son).diameter = editVal st.diameter inc ∧
      (adjustSetting st 2 inc son).targetCapacity
        = editVal st.targetCapacity inc) ∧
    (∀ (v : FV) (ops : List Bool), ops ≠ [] →
      ((ops.foldl editVal v).nonneg = true)) := by
  constructor
  · intro st inc son
    exact ⟨rfl, rfl⟩
  · intro v ops
    induction ops generalizing v with
    | nil => intro h; exact absurd rfl h
    | cons o rest ih =>
      intro _
      rcases rest with _ | ⟨o2, r2⟩
      · simpa using editVal_nonneg v o
      · simpa using ih (editVal v o) (by simp)

/-- C8 witness: one decrementing edit of each NaN field of a fully-NaN
profile, and the fold at the singleton edit sequence. -/
theorem edit_fields_nonneg_witness :
    ((adjustSetting ⟨.nan, .nan, .nan⟩ 1 false (.fin 0)).diameter
        = editVal FV.nan false ∧
     (adjustSetting ⟨.nan, .nan, .nan⟩ 2 false (.fin 0)).targetCapacity
        = editVal FV.nan false) ∧
    (([false].foldl editVal FV.nan).nonneg = true) :=
  ⟨edit_fields_nonneg.1 ⟨.nan, .nan, .nan⟩ false (.fin 0),
   edit_fields_nonneg.2 FV.nan [false] (by decide)⟩

/-! ## C9 — the volume formula and the worked display example -/

/-- C9: the Main-screen volume is
`PI * diameter * (minHeight - distance) / 1000` (diameter entering
linearly); the height at the worked example is `50 - 30 = 20`; at
`minHeight = 50`, `diameter = 20`, `targetCapacity = 10`, sample `30` the
volume is exactly `PI * 20 * 20 / 1000`, which is within `0.0001` of
`1.2566` and is printed with one decimal as `1.3` (13 tenths). -/
theorem volume_formula_and_display :
    (∀ mh dia tc dist : ℚ,
      computeVolume ⟨.fin mh, .fin dia, .fin tc⟩ (.fin dist)
        = .fin (PI * dia * (mh - dist) / 1000)) ∧
    (FV.fin 50).sub (.fin 30) = .fin 20 ∧
    computeVolume ⟨.fin 50, .fin 20, .fin 10⟩ (.fin 30)
      = .fin (PI * 20 * 20 / 1000) ∧
    |(PI * 20 * 20 / 1000 : ℚ) - 12566 / 10000| < 1 / 10000 ∧
    (updateMainScreen ⟨.fin 50, .fin 20, .fin 10⟩ (.fin 30)).printedTenths
      = some 13 := by
  refine ⟨computeVolume_fin, ?_, ?_, ?_, ?_⟩
  · rw [fin_sub]
    norm_num
  · rw [computeVolume_fin]
    norm_num
  · rw [abs_lt]
    constructor <;> norm_num [PI]
  · rw [updateMainScreen, computeVolume_fin]
    norm_num [FV.isnan, FV.lt, FV.printed1, printFloat1,
      MainRender.printedTenths, PI, Int.floor_eq_iff]

/-! ## C10 — NaN volume renders the prompt, not a number -/

/-- C10 counterexample: the NaN-branch message of the code is
`"please set up tank"`, so no `"please configure tank"` message (the text
the claim quotes) is ever rendered: at an unset profile (NaN diameter) the
render is the prompt with the code's text. -/
theorem nan_prompt_counterexample :
    updateMainScreen ⟨.fin 0, .nan, .fin 0⟩ (.fin 0)
      = .prompt "please set up tank" ∧
    (updateMainScreen ⟨.fin 0, .nan, .fin 0⟩ (.fin 0)).promptMsg
      ≠ some "please configure tank" := by
  decide

/-- C10 (amended): whenever the computed volume is NaN (in particular for
every profile with NaN diameter, whatever the sample), the Main screen
renders the prompt `"please set up tank"` — never a numeric readout. -/
theorem nan_volume_renders_prompt :
    (∀ (st : WaterTankSetting) (d : FV), (computeVolume st d).isnan = true →
      updateMainScreen st d = .prompt "please set up tank") ∧
    (∀ (mh tc d : FV), (computeVolume ⟨mh, .nan, tc⟩ d).isnan = true) := by
  constructor
  · intro st d h
    simp only [updateMainScreen, h, if_true]
  · intro mh tc d
    exact computeVolume_nan_diameter mh tc d

/-- C10 witness: the amended theorem at an unset (NaN-diameter) profile
and sample 0. -/
theorem nan_volume_renders_prompt_witness :
    updateMainScreen ⟨.fin 0, .nan, .fin 0⟩ (.fin 0)
      = .prompt "please set up tank" :=
  nan_volume_renders_prompt.1 ⟨.fin 0, .nan, .fin 0⟩ (.fin 0) (by rfl)

end MVM
